import Mathlib

/-!
Verification development for the paranext-core inter-process messaging
substrate: the data provider service (`DataProviderService`), the web view
service retry path (`web-view.service.ts`), and the renderer hooks
(`useData`, `useDataProvider`).

The TypeScript source is shallowly embedded: module-level mutable state
becomes an explicit state record threaded through functions, promises are
identified by numeric ids, thrown errors become `Except String`, and
side-effecting calls into the engine or into subscriber callbacks are
recorded as an explicit event trace.
-/

namespace Paranext

/-! ## Event traces

Calls into a data provider engine and invocations of subscriber callbacks
are observable effects; we record them in a trace so theorems can speak
about which calls a provider actually performs. Callbacks are identified
by a numeric id. -/

inductive Event (σ δ : Type) where
  | engineGet (selector : σ)
  | engineSet (selector : σ) (data : δ)
  | engineGenerateUpdates (setSelector : σ) (listenerSelectors : List σ)
  | callbackInvoked (callbackId : Nat) (data : δ)
  deriving DecidableEq

/-- A computation that may record engine/callback events alongside its
result (a writer-style effect). -/
abbrev Eff (σ δ α : Type) := List (Event σ δ) × α

/-! ## Data provider model (`IDataProviderEngine.ts`, `DataProviderService`) -/

/-- `DataProviderListenerUpdate<TData>` from `IDataProviderEngine.ts`:
`{shouldUpdate: true, data} | {shouldUpdate: false} | undefined | null | false`. -/
inductive DataProviderListenerUpdate (δ : Type) where
  | update (data : δ)
  | noUpdate
  | undefinedVal
  | null
  | falseVal
  deriving DecidableEq

/-- An engine whose three members are all genuine functions, as used by
`buildDataProvider` after validation. -/
structure EngineImpl (σ δ : Type) where
  set : σ → δ → Eff σ δ Bool
  get : σ → Eff σ δ δ
  generateUpdates : σ → List σ → Eff σ δ (List (DataProviderListenerUpdate δ))

/-- A member of a raw JavaScript engine object: absent (or falsy), present
but not a function, or a genuine function. The check
`!engine.m || typeof engine.m !== 'function'` rejects the first two. -/
inductive JSField (α : Type) where
  | missing
  | notAFunction
  | fn (f : α)

/-- Whether the member passes the `typeof ... === 'function'` check. -/
def JSField.isFn {α : Type} : JSField α → Bool
  | .fn _ => true
  | _ => false

/-- A raw engine object as received by `registerEngine`, before validation. -/
structure JSEngine (σ δ : Type) where
  get : JSField (σ → Eff σ δ δ)
  set : JSField (σ → δ → Eff σ δ Bool)
  generateUpdates : JSField (σ → List σ → Eff σ δ (List (DataProviderListenerUpdate δ)))

/-- `IDataProvider` as produced by `buildDataProvider`: `set`, `get`, and
`subscribe` returning an unsubscriber. The subscriber callback is passed
by id. -/
structure IDataProvider (σ δ : Type) where
  set : σ → δ → Eff σ δ Bool
  get : σ → Eff σ δ δ
  subscribe : σ → Nat → Eff σ δ (Unit → Eff σ δ Bool)

/-- `buildDataProvider` from `DataProviderService`:
`set` and `get` are the engine's own functions (bound), and `subscribe`
is `async (selector, callback) => { return async () => false; }`. -/
def buildDataProvider {σ δ : Type} (dataProviderEngine : EngineImpl σ δ) :
    IDataProvider σ δ where
  set := dataProviderEngine.set
  get := dataProviderEngine.get
  subscribe := fun _selector _callback => ([], fun _ => ([], false))

/-- Suffix on network objects that indicates a data provider. -/
def DATA_PROVIDER_LABEL : String := "data"

/-- Builds the id for the data provider network object of the given type:
`` `${dataType}-${DATA_PROVIDER_LABEL}` ``. -/
def buildDataProviderObjectId (dataType : String) : String :=
  dataType ++ "-" ++ DATA_PROVIDER_LABEL

/-! ## Network object service (state)

`NetworkObjectService` itself is not part of the embedded sources; the
entries below are modelled from the spec (§4.3): a directory of named
objects with `has`/`get`/`set` and an `onDidDispose` event per object,
where disposal removes the registry entry. -/

/-- Modelled from the spec: a registered network object entry — the stored
object together with the id of its `onDidDispose` event. -/
structure NetObjEntry (V : Type) where
  obj : V
  onDidDispose : Nat

/-- State of the data provider service process: the lazy-initialization
fields of `DataProviderService` (promise ids are numeric; the single
promise ever created gets id 0) plus the modelled network object
directory. -/
structure DPState (σ δ : Type) where
  initializePromise : Option Nat
  isInitialized : Bool
  networkInitialized : Bool
  netObjects : List (String × NetObjEntry (IDataProvider σ δ))
  nextEventId : Nat

/-- `initialize` from `DataProviderService`: returns the existing promise
if there is one, otherwise creates the one initialization promise (id 0),
awaits `NetworkService.initialize()` and marks the service initialized. -/
def dpsInitialize {σ δ : Type} (st : DPState σ δ) : Nat × DPState σ δ :=
  match st.initializePromise with
  | some p => (p, st)
  | none =>
      (0, { st with
              initializePromise := some 0
              networkInitialized := true
              isInitialized := true })

/-- Modelled from the spec: `networkObjectService.has(id)` — true iff some
process currently owns `id`. -/
def nosHas {V : Type} (id : String) (objects : List (String × NetObjEntry V)) : Bool :=
  (List.lookup id objects).isSome

/-- `has` from `DataProviderService`: awaits `initialize`, then asks the
network object service for `buildDataProviderObjectId dataType`. -/
def dpsHas {σ δ : Type} (dataType : String) (st : DPState σ δ) :
    Bool × DPState σ δ :=
  let (_, st1) := dpsInitialize st
  (nosHas (buildDataProviderObjectId dataType) st1.netObjects, st1)

theorem dpsInitialize_netObjects {σ δ : Type} (st : DPState σ δ) :
    (dpsInitialize st).2.netObjects = st.netObjects := by
  unfold dpsInitialize
  cases st.initializePromise <;> rfl

theorem dpsHas_fst {σ δ : Type} (dataType : String) (st : DPState σ δ) :
    (dpsHas dataType st).1
      = nosHas (buildDataProviderObjectId dataType) st.netObjects :=
  congrArg (fun l => nosHas (buildDataProviderObjectId dataType) l)
    (dpsInitialize_netObjects st)

/-- `DataProviderInfo` returned by `DataProviderService.get`. -/
structure DataProviderInfo (σ δ : Type) where
  dataProvider : IDataProvider σ δ
  onDidDispose : Nat

/-- `DisposableDataProviderInfo` returned by `registerEngine` (the
`dispose` member is carried as the network object info's event id). -/
structure DisposableDataProviderInfo (σ δ : Type) where
  dataProvider : IDataProvider σ δ
  dispose : Nat
  onDidDispose : Nat

/-- Modelled from the spec: `networkObjectService.set(id, obj)` — fails if
`id` is already registered network-wide, otherwise stores the object,
allocates its `onDidDispose` event and returns the stored entry. -/
def nosSet {σ δ : Type} (id : String) (obj : IDataProvider σ δ)
    (st : DPState σ δ) :
    Except String (NetObjEntry (IDataProvider σ δ)) × DPState σ δ :=
  if (List.lookup id st.netObjects).isSome then
    (.error ("Network object with id " ++ id ++ " is already registered"), st)
  else
    let entry : NetObjEntry (IDataProvider σ δ) := ⟨obj, st.nextEventId⟩
    (.ok entry,
      { st with
          netObjects := st.netObjects ++ [(id, entry)]
          nextEventId := st.nextEventId + 1 })

/-- `registerEngine` from `DataProviderService`: awaits `initialize`,
fails if `has dataType`, validates that the engine has `get`, `set` and
`generateUpdates` functions (in that order), wraps the engine with
`buildDataProvider` and registers it as the network object
`buildDataProviderObjectId dataType`. -/
def registerEngine {σ δ : Type} (dataType : String) (dataProviderEngine : JSEngine σ δ)
    (st : DPState σ δ) :
    Except String (DisposableDataProviderInfo σ δ) × DPState σ δ :=
  let (_, st1) := dpsInitialize st
  let (alreadyHas, st2) := dpsHas dataType st1
  if alreadyHas then
    (.error ("Data provider with type " ++ dataType ++ " is already registered"), st2)
  else
    match dataProviderEngine.get with
    | .fn getFn =>
        match dataProviderEngine.set with
        | .fn setFn =>
            match dataProviderEngine.generateUpdates with
            | .fn generateUpdatesFn =>
                let dataProvider :=
                  buildDataProvider ⟨setFn, getFn, generateUpdatesFn⟩
                match nosSet (buildDataProviderObjectId dataType) dataProvider st2 with
                | (.error msg, st3) => (.error msg, st3)
                | (.ok networkObjectInfo, st3) =>
                    (.ok ⟨networkObjectInfo.obj, networkObjectInfo.onDidDispose,
                          networkObjectInfo.onDidDispose⟩, st3)
            | _ =>
                (.error "Data provider engine does not have a generateUpdates function", st2)
        | _ => (.error "Data provider engine does not have a set function", st2)
    | _ => (.error "Data provider engine does not have a get function", st2)

/-- Modelled from the spec: `networkObjectService.get(id)` — the stored
entry (object plus `onDidDispose`) if `id` exists anywhere on the network,
`undefined` otherwise; disposal removes the entry, so a disposed id also
yields `undefined`. -/
def nosGet {σ δ : Type} (id : String) (st : DPState σ δ) :
    Option (NetObjEntry (IDataProvider σ δ)) :=
  List.lookup id st.netObjects

/-- `get` from `DataProviderService`: awaits `initialize`, asks the
network object service for `buildDataProviderObjectId dataType`, returns
`undefined` if absent and `{dataProvider, onDidDispose}` otherwise. -/
def dpsGet {σ δ : Type} (dataType : String) (st : DPState σ δ) :
    Option (DataProviderInfo σ δ) × DPState σ δ :=
  let (_, st1) := dpsInitialize st
  match nosGet (buildDataProviderObjectId dataType) st1 with
  | none => (none, st1)
  | some networkObjectInfo =>
      (some ⟨networkObjectInfo.obj, networkObjectInfo.onDidDispose⟩, st1)

/-! ## Web view service (`web-view.service.ts`) -/

/-- Modelled from the spec: `serializeRequestType` from `papi-util` —
request types are dot-delimited strings such as `"webView.addWebView"`. -/
def serializeRequestType (category directive : String) : String :=
  category ++ "." ++ directive

/-- Prefix on requests related to webView operations. -/
def CATEGORY_WEB_VIEW : String := "webView"

/-- The add-web-view request name. -/
def ADD_WEB_VIEW_REQUEST : String := "addWebView"

/-- The exact error message the retry loop in `addWebView` matches on. -/
def noHandlerMessage : String :=
  "No handler was found to process the request of type "
    ++ serializeRequestType CATEGORY_WEB_VIEW ADD_WEB_VIEW_REQUEST

/-- The message thrown after the retry loop, which the code reaches only if
every iteration neither returned nor threw. -/
def addWebViewLoopExitMessage : String :=
  "addWebView failed, but you should have seen a different error than this!"

/-- Observed behaviour of one non-renderer `addWebView` call: the value
returned or error thrown, how many `networkService.request` attempts were
made, and how long it spent in `wait` calls (milliseconds). -/
structure AddWebViewRun where
  result : Except String (Option String)
  attemptsUsed : Nat
  waitMs : Nat

/-- The retry loop of `addWebView` in the non-renderer branch.
`outcomes n` is what the `n`-th `networkService.request` attempt does:
resolve with a web view id (or `undefined`), or reject with an error
message. The loop counts `attemptsRemaining` down from 5; on an error it
rethrows when `attemptsRemaining === 1` or the message is not exactly
`noHandlerMessage`, and otherwise waits 1000 ms and retries. -/
def addWebViewAttempts (outcomes : Nat → Except String (Option String)) :
    Nat → Nat → AddWebViewRun
  | _attempt, 0 => ⟨.error addWebViewLoopExitMessage, 0, 0⟩
  | attempt, attemptsRemaining + 1 =>
      match outcomes attempt with
      | .ok webViewId => ⟨.ok webViewId, 1, 0⟩
      | .error msg =>
          if attemptsRemaining + 1 = 1 ∨ msg ≠ noHandlerMessage then
            ⟨.error msg, 1, 0⟩
          else
            let rest := addWebViewAttempts outcomes (attempt + 1) attemptsRemaining
            ⟨rest.result, rest.attemptsUsed + 1, rest.waitMs + 1000⟩

/-- `addWebView` when `isRenderer()` is false: the retry loop starting with
`attemptsRemaining = 5`. -/
def addWebViewNonRenderer (outcomes : Nat → Except String (Option String)) :
    AddWebViewRun :=
  addWebViewAttempts outcomes 0 5

/-- State of the web view service: its lazy-initialization fields and the
request handlers it has registered with the network service. -/
structure WVState where
  initializePromise : Option Nat
  isInitialized : Bool
  registeredHandlers : List String
  deriving DecidableEq

/-- `initialize` from `web-view.service.ts`: returns the existing promise
if there is one, otherwise creates the one initialization promise (id 0),
registers the renderer request handlers when running in the renderer, and
marks the service initialized. -/
def wvsInitialize (isRenderer : Bool) (st : WVState) : Nat × WVState :=
  match st.initializePromise with
  | some p => (p, st)
  | none =>
      (0, { initializePromise := some 0
            isInitialized := true
            registeredHandlers :=
              st.registeredHandlers ++
                (if isRenderer then
                  [serializeRequestType CATEGORY_WEB_VIEW ADD_WEB_VIEW_REQUEST]
                else []) })

/-! ## `useData` proxy (renderer hook) -/

/-- A JavaScript property key as seen by a Proxy `get` trap: a string or a
symbol (identified by a numeric id). `isString` is true exactly on the
first constructor. -/
inductive JSKey where
  | str (s : String)
  | sym (id : Nat)
  deriving DecidableEq

/-- String keys that `prop in useDataCachedHooks` finds on the prototype
chain of the plain object literal `useDataCachedHooks`, namely the
properties of `Object.prototype`. -/
def objectPrototypeKeys : List String :=
  ["constructor", "hasOwnProperty", "isPrototypeOf", "propertyIsEnumerable",
   "toLocaleString", "toString", "valueOf", "__defineGetter__",
   "__defineSetter__", "__lookupGetter__", "__lookupSetter__", "__proto__"]

/-- A hook function built by `createUseDataHook`: its captured data type
plus a creation counter standing for JavaScript object identity. -/
structure UseDataHookFn where
  dataType : String
  id : Nat
  deriving DecidableEq

/-- `createUseDataHook(dataType)` returns a fresh hook closure; `id` is
the fresh identity. -/
def createUseDataHook (dataType : String) (id : Nat) : UseDataHookFn :=
  ⟨dataType, id⟩

/-- The mutable state behind the `useData` proxy: the own properties of
`useDataCachedHooks` and the next fresh hook identity. -/
structure UseDataState where
  cache : List (String × UseDataHookFn)
  nextHookId : Nat
  deriving DecidableEq

/-- What a `useData[prop]` access evaluates to. -/
inductive UseDataGetResult where
  | hook (h : UseDataHookFn)
  | protoMember (name : String)
  | undefinedVal
  | thrown (msg : String)
  deriving DecidableEq

/-- An unmediated JavaScript property read `useDataCachedHooks[k]`: the own
cached hook if present, else the inherited `Object.prototype` member, else
`undefined`. -/
def jsPropRead (st : UseDataState) (k : String) : UseDataGetResult :=
  match List.lookup k st.cache with
  | some h => .hook h
  | none => if objectPrototypeKeys.contains k then .protoMember k else .undefinedVal

/-- The `get` trap of the `useData` proxy: pass `'then'` through, return
`undefined` for `'$$typeof'`, return the existing entry when
`prop in useDataCachedHooks` (own or inherited), throw on non-string
keys (symbols — no symbol is ever a property of the cache object, so the
`in` check is false for them), and otherwise build, cache and return a
new hook. -/
def useDataGet (st : UseDataState) (prop : JSKey) : UseDataGetResult × UseDataState :=
  match prop with
  | .sym _ => (.thrown "Must provide a string to the useData hook proxy", st)
  | .str s =>
      if s = "then" then (jsPropRead st s, st)
      else if s = "$$typeof" then (.undefinedVal, st)
      else if (List.lookup s st.cache).isSome || objectPrototypeKeys.contains s then
        (jsPropRead st s, st)
      else
        let newHook := createUseDataHook s st.nextHookId
        (.hook newHook, ⟨st.cache ++ [(s, newHook)], st.nextHookId + 1⟩)

/-! ## `useDataProvider` hook (`useDataProvider.ts`) -/

/-- The resolved value of `dataProviderService.get` as the hook sees it. -/
structure HookDataProviderInfo (T : Type) where
  dataProvider : T
  onDidDispose : Nat

/-- The hook argument `dataProviderSource`: a string data type, a data
provider object, or `undefined`. -/
inductive DataProviderSource (T : Type) where
  | str (s : String)
  | provider (p : T)
  | undefinedVal

/-- `isString` from `Util` applied to the hook argument. -/
def isStringSource {T : Type} : DataProviderSource T → Bool
  | .str _ => true
  | _ => false

/-- One render of `useDataProvider`: the returned value, which data type
(if any) the `usePromise` factory will look up through
`dataProviderService.get`, and whether `useEvent` was subscribed to the
provider info's `onDidDispose` event. -/
structure UseDataProviderRender (T : Type) where
  result : Option T
  requestedLookup : Option String
  subscribedToDispose : Bool

/-- `useDataProvider` as a function of its argument and its React state
(`dataProviderInfo` = the resolved lookup promise, `isDisposed` = the
flag set by the `onDidDispose` subscription). Mirrors the hook body:
`didReceiveDataProvider = !isString(source)`; the promise factory is
`undefined` when a provider was received and otherwise looks the string up
(skipping the lookup for the falsy empty string); `useEvent` receives the
`onDidDispose` event only when a lookup produced an info and the provider
is not yet disposed; a received provider (or `undefined`) is returned
unchanged, and a looked-up provider is returned only while not disposed. -/
def useDataProviderRender {T : Type} (dataProviderSource : DataProviderSource T)
    (dataProviderInfo : Option (HookDataProviderInfo T)) (isDisposed : Bool) :
    UseDataProviderRender T :=
  let didReceiveDataProvider := !(isStringSource dataProviderSource)
  let requestedLookup : Option String :=
    if didReceiveDataProvider then none
    else
      match dataProviderSource with
      | .str s => if s = "" then none else some s
      | _ => none
  let subscribedToDispose :=
    !didReceiveDataProvider && dataProviderInfo.isSome && !isDisposed
  let result : Option T :=
    if didReceiveDataProvider then
      match dataProviderSource with
      | .provider p => some p
      | _ => none
    else
      match dataProviderInfo, isDisposed with
      | some info, false => some info.dataProvider
      | _, _ => none
  ⟨result, requestedLookup, subscribedToDispose⟩

/-! ## Shared sample objects and helper lemmas -/

/-- Whether an event is a `generateUpdates` call on the engine. -/
def Event.isGenerateUpdatesCall {σ δ : Type} : Event σ δ → Bool
  | .engineGenerateUpdates _ _ => true
  | _ => false

/-- Whether an event is an invocation of a subscriber callback. -/
def Event.isCallbackCall {σ δ : Type} : Event σ δ → Bool
  | .callbackInvoked _ _ => true
  | _ => false

/-- A concrete engine over string selectors and string data, in the shape
of the spec scenario: `get` returns `"12:00"`, `set` records the call and
reports success, and `generateUpdates` tells every listener to update
with `"12:05"`. -/
def timeEngine : EngineImpl String String where
  set := fun selector data => ([Event.engineSet selector data], true)
  get := fun selector => ([Event.engineGet selector], "12:00")
  generateUpdates := fun setSelector listenerSelectors =>
    ([Event.engineGenerateUpdates setSelector listenerSelectors],
     listenerSelectors.map fun _ => .update "12:05")

/-- A trivial engine over `Unit`, used to populate sample states. -/
def unitEngineImpl : EngineImpl Unit Unit where
  set := fun _ _ => ([], true)
  get := fun _ => ([], ())
  generateUpdates := fun _ _ => ([], [])

/-- The data provider wrapped around `unitEngineImpl`. -/
def unitProvider : IDataProvider Unit Unit := buildDataProvider unitEngineImpl

/-- A raw engine over `Unit` whose three members are all functions. -/
def unitJSEngine : JSEngine Unit Unit where
  get := .fn fun _ => ([], ())
  set := .fn fun _ _ => ([], true)
  generateUpdates := .fn fun _ _ => ([], [])

/-- A raw engine whose `get` member is absent. -/
def missingGetEngine : JSEngine Unit Unit where
  get := .missing
  set := .fn fun _ _ => ([], true)
  generateUpdates := .fn fun _ _ => ([], [])

/-- An initialized service state in which the data type `"foo"` is already
registered (its network object id `"foo-data"` is taken). -/
def sampleRegisteredState : DPState Unit Unit where
  initializePromise := some 0
  isInitialized := true
  networkInitialized := true
  netObjects := [("foo-data", ⟨unitProvider, 0⟩)]
  nextEventId := 1

/-- A fresh, never-initialized service state. -/
def emptyDPState : DPState Unit Unit where
  initializePromise := none
  isInitialized := false
  networkInitialized := false
  netObjects := []
  nextEventId := 0

theorem dpsInitialize_fix {σ δ : Type} (st : DPState σ δ) :
    dpsInitialize (dpsInitialize st).2
      = ((dpsInitialize st).1, (dpsInitialize st).2) := by
  cases h : st.initializePromise <;> simp [dpsInitialize, h]

theorem lookup_append_of_none {α β : Type} [BEq α] (k : α)
    (l₁ l₂ : List (α × β)) (h : List.lookup k l₁ = none) :
    List.lookup k (l₁ ++ l₂) = List.lookup k l₂ := by
  induction l₁ with
  | nil => rfl
  | cons hd tl ih =>
      rcases hd with ⟨k', v⟩
      rw [List.cons_append]
      rw [List.lookup_cons] at h ⊢
      cases hk : (k == k') with
      | true => rw [hk] at h; exact Option.noConfusion h
      | false => rw [hk] at h; exact ih h

/-! ## Claim theorems -/

/-- C1: the claim states that `subscribe(selector, callback)` registers
the pair as a listener entry and immediately calls `get(selector)` once,
delivering the value to the callback. The code disagrees: the provider
built by `buildDataProvider` has a stub `subscribe` that performs no
engine call and no callback invocation whatsoever (its event trace is
empty) and merely returns the constant unsubscriber resolving `false`;
the listener is never recorded anywhere. -/
theorem subscribe_stub_never_calls_get {σ δ : Type} (dataProviderEngine : EngineImpl σ δ)
    (selector : σ) (callbackId : Nat) :
    (buildDataProvider dataProviderEngine).subscribe selector callbackId
      = ([], fun _ => ([], false)) := rfl

/-- C2: the claim states that a successful `set(selector, data)` makes the
provider call `engine.generateUpdates` over the listener selectors and fan
`data` out to exactly the listeners whose entry has `shouldUpdate = true`.
The code disagrees: the provider's `set` is nothing but the engine's own
`set` (bound), so even for an engine whose `set` succeeds, the event trace
of a provider-level `set` contains no `generateUpdates` call and no
callback invocation, and no listener receives anything (the provider keeps
no listener list at all). -/
theorem set_never_fans_out :
    (∀ (σ δ : Type) (dataProviderEngine : EngineImpl σ δ) (selector : σ) (data : δ),
      (buildDataProvider dataProviderEngine).set selector data
        = dataProviderEngine.set selector data)
    ∧ (buildDataProvider timeEngine).set "x" "12:05"
        = ([Event.engineSet "x" "12:05"], true)
    ∧ ((buildDataProvider timeEngine).set "x" "12:05").1.all
        (fun ev => !ev.isGenerateUpdatesCall && !ev.isCallbackCall) = true :=
  ⟨fun _ _ _ _ _ => rfl, rfl, rfl⟩

/-- C7: the data provider layer addresses its network object for
`dataType` under the id `<dataType>-data`, and `has(dataType)` returns
exactly what `networkObjectService.has` returns for that derived id. -/
theorem has_uses_derived_object_id :
    ∀ (σ δ : Type) (dataType : String) (st : DPState σ δ),
      buildDataProviderObjectId dataType = dataType ++ "-data"
      ∧ (dpsHas dataType st).1 = nosHas (dataType ++ "-data") st.netObjects := by
  intro σ δ d st
  have hid : buildDataProviderObjectId d = d ++ "-data" := by
    apply String.ext
    simp only [buildDataProviderObjectId, DATA_PROVIDER_LABEL, String.data_append]
    rw [List.append_assoc]
    rfl
  refine ⟨hid, ?_⟩
  rw [← hid]
  exact dpsHas_fst d st

/-- C8: for both singleton services, every `initialize()` call after the
first returns the same promise (id) as the first call and leaves the
service state unchanged, so at most one initialization runs. -/
theorem initialize_returns_same_promise :
    ∀ (σ δ : Type) (st : DPState σ δ) (isRenderer : Bool) (wst : WVState),
      dpsInitialize (dpsInitialize st).2
        = ((dpsInitialize st).1, (dpsInitialize st).2)
      ∧ wvsInitialize isRenderer (wvsInitialize isRenderer wst).2
          = ((wvsInitialize isRenderer wst).1, (wvsInitialize isRenderer wst).2) := by
  intro σ δ st isRenderer wst
  refine ⟨dpsInitialize_fix st, ?_⟩
  cases h : wst.initializePromise <;> simp [wvsInitialize, h]

/-- C10: when `useDataProvider` receives anything other than a string (a
provider object or `undefined`), it returns the argument unchanged with no
`dataProviderService` lookup requested and no `onDidDispose` subscription,
whatever the disposal state — while a provider fetched by string name is
replaced with `undefined` once its disposal flag is set. -/
theorem useDataProvider_passes_nonstrings_through :
    ∀ (T : Type) (p : T) (dataProviderInfo : Option (HookDataProviderInfo T))
      (isDisposed : Bool) (s : String) (inf : HookDataProviderInfo T),
      useDataProviderRender (DataProviderSource.provider p) dataProviderInfo isDisposed
        = ⟨some p, none, false⟩
      ∧ useDataProviderRender (DataProviderSource.undefinedVal : DataProviderSource T)
          dataProviderInfo isDisposed = ⟨none, none, false⟩
      ∧ (useDataProviderRender (DataProviderSource.str s : DataProviderSource T)
          (some inf) true).result = none :=
  fun _ _ _ _ _ _ => ⟨rfl, rfl, rfl⟩

/-- C3: when a data provider for `dataType` already exists on the network
(`has` is true), a further `registerEngine(dataType, engine)` rejects with
the duplicate-type error and leaves the whole service state — in
particular the first registration — untouched; `has` still reports the
provider afterwards. -/
theorem registerEngine_duplicate_rejected {σ δ : Type} (dataType : String)
    (dataProviderEngine : JSEngine σ δ) (st : DPState σ δ) (p : Nat)
    (hInit : st.initializePromise = some p)
    (hHas : (dpsHas dataType st).1 = true) :
    registerEngine dataType dataProviderEngine st
      = (.error ("Data provider with type " ++ dataType ++ " is already registered"), st)
    ∧ (dpsHas dataType (registerEngine dataType dataProviderEngine st).2).1 = true := by
  have hfix : dpsInitialize st = (p, st) := by
    unfold dpsInitialize; rw [hInit]
  have hn : nosHas (buildDataProviderObjectId dataType) st.netObjects = true := by
    rw [← dpsHas_fst]; exact hHas
  have hhas2 : dpsHas dataType st = (true, st) := by
    unfold dpsHas
    rw [hfix]
    simp [hn]
  have hre : registerEngine dataType dataProviderEngine st
      = (.error ("Data provider with type " ++ dataType ++ " is already registered"), st) := by
    simp [registerEngine, hfix, hhas2]
  exact ⟨hre, by rw [hre]; exact hHas⟩

/-- Witness for C3 at a concrete state in which `"foo"` is registered. -/
theorem registerEngine_duplicate_rejected_w :
    sampleRegisteredState.initializePromise = some 0
    ∧ (dpsHas "foo" sampleRegisteredState).1 = true
    ∧ registerEngine "foo" unitJSEngine sampleRegisteredState
        = (.error ("Data provider with type " ++ "foo" ++ " is already registered"),
           sampleRegisteredState) :=
  ⟨rfl, rfl,
   (registerEngine_duplicate_rejected "foo" unitJSEngine sampleRegisteredState 0 rfl rfl).1⟩

/-- The error message `registerEngine` produces for an engine member that
is not a function, in the order the code checks them: `get`, then `set`,
then `generateUpdates`. -/
def missingFunctionMessage {σ δ : Type} (dataProviderEngine : JSEngine σ δ) : String :=
  if dataProviderEngine.get.isFn = false then
    "Data provider engine does not have a get function"
  else if dataProviderEngine.set.isFn = false then
    "Data provider engine does not have a set function"
  else "Data provider engine does not have a generateUpdates function"

/-- C4 counterexample: the claim says a missing-`get` engine is always
rejected with an error identifying the missing function. But the
duplicate-type check runs first: with `"foo"` already registered,
`registerEngine "foo"` of an engine lacking `get` rejects with the
duplicate-type message, which names no missing function. -/
theorem registerEngine_dup_check_precedes_validation :
    missingGetEngine.get.isFn = false
    ∧ (registerEngine "foo" missingGetEngine sampleRegisteredState).1
        = .error ("Data provider with type " ++ "foo" ++ " is already registered")
    ∧ ("Data provider with type " ++ "foo" ++ " is already registered" : String)
        ≠ "Data provider engine does not have a get function"
    ∧ ("Data provider with type " ++ "foo" ++ " is already registered" : String)
        ≠ "Data provider engine does not have a set function"
    ∧ ("Data provider with type " ++ "foo" ++ " is already registered" : String)
        ≠ "Data provider engine does not have a generateUpdates function" :=
  ⟨rfl, rfl, by decide, by decide, by decide⟩

/-- C4 (amended): provided no provider is yet registered for `dataType`,
`registerEngine` of an engine lacking a `get`, `set` or `generateUpdates`
function rejects with the error identifying the first missing function
(checked in that order) and registers nothing: the network object
directory is unchanged. -/
theorem registerEngine_invalid_engine_rejected {σ δ : Type} (dataType : String)
    (dataProviderEngine : JSEngine σ δ) (st : DPState σ δ)
    (hFresh : (dpsHas dataType st).1 = false)
    (hMissing : ¬(dataProviderEngine.get.isFn = true
        ∧ dataProviderEngine.set.isFn = true
        ∧ dataProviderEngine.generateUpdates.isFn = true)) :
    (registerEngine dataType dataProviderEngine st).1
        = .error (missingFunctionMessage dataProviderEngine)
    ∧ (registerEngine dataType dataProviderEngine st).2.netObjects = st.netObjects := by
  rcases hinit : dpsInitialize st with ⟨p, st1⟩
  have hno : st1.netObjects = st.netObjects := by
    have h := dpsInitialize_netObjects st
    rw [hinit] at h
    exact h
  have hn : nosHas (buildDataProviderObjectId dataType) st.netObjects = false := by
    rw [← dpsHas_fst]; exact hFresh
  have hfix1 : dpsInitialize st1 = (p, st1) := by
    have h := dpsInitialize_fix st
    rw [hinit] at h
    exact h
  have hhas2 : dpsHas dataType st1 = (false, st1) := by
    unfold dpsHas
    rw [hfix1]
    simp [hno, hn]
  rcases dataProviderEngine with ⟨g, s, u⟩
  cases g <;> cases s <;> cases u <;>
    simp_all [registerEngine, missingFunctionMessage, JSField.isFn]

/-- Witness for C4 at a fresh state and the engine lacking `get`. -/
theorem registerEngine_invalid_engine_rejected_w :
    (dpsHas "bar" emptyDPState).1 = false
    ∧ missingGetEngine.get.isFn = false
    ∧ (registerEngine "bar" missingGetEngine emptyDPState).1
        = .error "Data provider engine does not have a get function"
    ∧ (registerEngine "bar" missingGetEngine emptyDPState).2.netObjects = [] := by
  have h := registerEngine_invalid_engine_rejected "bar" missingGetEngine emptyDPState rfl
    (by decide)
  exact ⟨rfl, rfl, h.1, h.2⟩

theorem dpsGet_fst {σ δ : Type} (dataType : String) (st : DPState σ δ) :
    (dpsGet dataType st).1
      = (nosGet (buildDataProviderObjectId dataType) st).map
          (fun e => ⟨e.obj, e.onDidDispose⟩) := by
  rcases hinit : dpsInitialize st with ⟨p, st1⟩
  have hno : st1.netObjects = st.netObjects := by
    have h := dpsInitialize_netObjects st
    rw [hinit] at h
    exact h
  have hkey : nosGet (buildDataProviderObjectId dataType) st1
      = nosGet (buildDataProviderObjectId dataType) st := by
    unfold nosGet
    rw [hno]
  simp only [dpsGet, hinit]
  rw [hkey]
  cases nosGet (buildDataProviderObjectId dataType) st <;> rfl

/-- C6: `get(dataType)` resolves to `undefined` exactly when no network
object for `dataType` currently exists (never registered, or disposed and
hence removed from the directory), and otherwise resolves to the object
carrying the provider and its `onDidDispose` event. -/
theorem dps_get_none_iff_absent :
    ∀ (σ δ : Type) (dataType : String) (st : DPState σ δ),
      ((dpsGet dataType st).1 = none
        ↔ nosGet (buildDataProviderObjectId dataType) st = none)
      ∧ (∀ entry, nosGet (buildDataProviderObjectId dataType) st = some entry →
          (dpsGet dataType st).1 = some ⟨entry.obj, entry.onDidDispose⟩) := by
  intro σ δ dataType st
  constructor
  · rw [dpsGet_fst, Option.map_eq_none']
  · intro entry he
    rw [dpsGet_fst, he]
    rfl

/-- Witness for C6: a present provider is returned with its event, an
absent one gives `undefined`. -/
theorem dps_get_none_iff_absent_w :
    nosGet "foo-data" sampleRegisteredState = some ⟨unitProvider, 0⟩
    ∧ (dpsGet "foo" sampleRegisteredState).1 = some ⟨unitProvider, 0⟩
    ∧ (dpsGet "bar" sampleRegisteredState).1 = none := by
  refine ⟨rfl, ?_, ?_⟩
  · exact (dps_get_none_iff_absent Unit Unit "foo" sampleRegisteredState).2 ⟨unitProvider, 0⟩ rfl
  · exact (dps_get_none_iff_absent Unit Unit "bar" sampleRegisteredState).1.mpr rfl

/-- The pristine `useData` proxy state: empty cache. -/
def useDataInitState : UseDataState := ⟨[], 0⟩

/-- C9 counterexample: the claim says the first access of any string key
creates and caches a hook. For the string key `"then"` (and likewise
`"$$typeof"` and the keys of `Object.prototype`) the trap instead passes
the property through: the first access of `useData["then"]` yields
`undefined`, creates no hook and leaves the cache empty. -/
theorem useData_then_access_creates_no_hook :
    useDataGet useDataInitState (JSKey.str "then")
      = (UseDataGetResult.undefinedVal, useDataInitState)
    ∧ useDataGet useDataInitState (JSKey.str "$$typeof")
      = (UseDataGetResult.undefinedVal, useDataInitState)
    ∧ useDataGet useDataInitState (JSKey.str "toString")
      = (UseDataGetResult.protoMember "toString", useDataInitState) :=
  ⟨rfl, rfl, rfl⟩

/-- C9 (amended): for every string key other than `"then"`, `"$$typeof"`
and the inherited `Object.prototype` keys, the first access builds a hook
for that key and appends it to the cache, a repeat access returns the
identical cached hook object with the state unchanged, any access of an
already-cached key returns exactly the cached hook, and accessing a
non-string (symbol) key throws. -/
theorem useData_access_idempotent (s : String) (st : UseDataState)
    (hThen : s ≠ "then") (hTypeof : s ≠ "$$typeof")
    (hProto : objectPrototypeKeys.contains s = false) :
    (List.lookup s st.cache = none →
      useDataGet st (JSKey.str s)
        = (.hook ⟨s, st.nextHookId⟩,
           ⟨st.cache ++ [(s, ⟨s, st.nextHookId⟩)], st.nextHookId + 1⟩)
      ∧ useDataGet (useDataGet st (JSKey.str s)).2 (JSKey.str s)
        = (.hook ⟨s, st.nextHookId⟩, (useDataGet st (JSKey.str s)).2))
    ∧ (∀ h, List.lookup s st.cache = some h →
        useDataGet st (JSKey.str s) = (.hook h, st))
    ∧ (∀ symId, useDataGet st (JSKey.sym symId)
        = (.thrown "Must provide a string to the useData hook proxy", st)) := by
  have cached : ∀ (st' : UseDataState) (h : UseDataHookFn),
      List.lookup s st'.cache = some h →
      useDataGet st' (JSKey.str s) = (.hook h, st') := by
    intro st' h hsome
    simp only [useDataGet]
    rw [if_neg hThen, if_neg hTypeof, if_pos (by simp [hsome])]
    simp [jsPropRead, hsome]
  refine ⟨?_, cached st, fun _ => rfl⟩
  intro hnone
  have h1 : useDataGet st (JSKey.str s)
      = (.hook ⟨s, st.nextHookId⟩,
         ⟨st.cache ++ [(s, ⟨s, st.nextHookId⟩)], st.nextHookId + 1⟩) := by
    simp only [useDataGet]
    rw [if_neg hThen, if_neg hTypeof,
      if_neg (by simp [hnone]; simpa using hProto)]
    rfl
  refine ⟨h1, ?_⟩
  rw [h1]
  apply cached
  rw [lookup_append_of_none s st.cache _ hnone]
  simp [List.lookup_cons]

/-- Witness for C9 at the key `"Verse"` and the empty cache. -/
theorem useData_access_idempotent_w :
    useDataGet useDataInitState (JSKey.str "Verse")
      = (.hook ⟨"Verse", 0⟩, ⟨[("Verse", ⟨"Verse", 0⟩)], 1⟩)
    ∧ useDataGet ⟨[("Verse", ⟨"Verse", 0⟩)], 1⟩ (JSKey.str "Verse")
      = (.hook ⟨"Verse", 0⟩, ⟨[("Verse", ⟨"Verse", 0⟩)], 1⟩)
    ∧ useDataGet useDataInitState (JSKey.sym 0)
      = (.thrown "Must provide a string to the useData hook proxy", useDataInitState) := by
  have h := useData_access_idempotent "Verse" useDataInitState
    (by decide) (by decide) (by decide)
  exact ⟨(h.1 rfl).1, (h.1 rfl).2, h.2.2 0⟩

theorem addWebViewAttempts_spec (outcomes : Nat → Except String (Option String)) :
    ∀ (n : Nat), 1 ≤ n → ∀ (start : Nat),
      1 ≤ (addWebViewAttempts outcomes start n).attemptsUsed
      ∧ (addWebViewAttempts outcomes start n).attemptsUsed ≤ n
      ∧ (addWebViewAttempts outcomes start n).waitMs
          = 1000 * ((addWebViewAttempts outcomes start n).attemptsUsed - 1)
      ∧ (∀ i, i + 1 < (addWebViewAttempts outcomes start n).attemptsUsed →
          outcomes (start + i) = .error noHandlerMessage)
      ∧ (addWebViewAttempts outcomes start n).result
          = outcomes (start + ((addWebViewAttempts outcomes start n).attemptsUsed - 1))
      ∧ ((addWebViewAttempts outcomes start n).attemptsUsed < n →
          outcomes (start + ((addWebViewAttempts outcomes start n).attemptsUsed - 1))
            ≠ .error noHandlerMessage) := by
  intro n
  induction n with
  | zero => intro h; exact absurd h (by decide)
  | succ m ih =>
      intro _ start
      rcases hout : outcomes start with msg | v
      · by_cases hc : m + 1 = 1 ∨ msg ≠ noHandlerMessage
        · have hres : addWebViewAttempts outcomes start (m + 1)
              = ⟨.error msg, 1, 0⟩ := by
            simp only [addWebViewAttempts, hout]
            rw [if_pos hc]
          rw [hres]
          refine ⟨le_refl 1, Nat.succ_le_succ (Nat.zero_le m), by norm_num, ?_, ?_, ?_⟩
          · intro i hi
            have hi' : i + 1 < 1 := hi
            exact absurd hi' (by omega)
          · show Except.error msg = outcomes (start + (1 - 1))
            have : outcomes (start + (1 - 1)) = Except.error msg := hout
            exact this.symm
          · intro hlt
            have hlt' : (1 : Nat) < m + 1 := hlt
            have hmsg : msg ≠ noHandlerMessage := hc.resolve_left (by omega)
            intro heq
            have heq0 : outcomes start = Except.error noHandlerMessage := heq
            rw [hout] at heq0
            exact hmsg (Except.error.inj heq0)
        · push_neg at hc
          obtain ⟨hm1, hmsg⟩ := hc
          have hm : 1 ≤ m := by omega
          have hres : addWebViewAttempts outcomes start (m + 1)
              = ⟨(addWebViewAttempts outcomes (start + 1) m).result,
                 (addWebViewAttempts outcomes (start + 1) m).attemptsUsed + 1,
                 (addWebViewAttempts outcomes (start + 1) m).waitMs + 1000⟩ := by
            simp only [addWebViewAttempts, hout]
            rw [if_neg (by push_neg; exact ⟨hm1, hmsg⟩)]
          obtain ⟨r1, rle, rwait, rprev, rres, rstop⟩ := ih hm (start + 1)
          rw [hres]
          refine ⟨?_, ?_, ?_, ?_, ?_, ?_⟩
          · show 1 ≤ (addWebViewAttempts outcomes (start + 1) m).attemptsUsed + 1
            omega
          · show (addWebViewAttempts outcomes (start + 1) m).attemptsUsed + 1 ≤ m + 1
            omega
          · show (addWebViewAttempts outcomes (start + 1) m).waitMs + 1000
              = 1000 * ((addWebViewAttempts outcomes (start + 1) m).attemptsUsed + 1 - 1)
            omega
          · intro i hi
            have hi' : i + 1
                < (addWebViewAttempts outcomes (start + 1) m).attemptsUsed + 1 := hi
            cases i with
            | zero =>
                show outcomes (start + 0) = Except.error noHandlerMessage
                rw [Nat.add_zero, hout, hmsg]
            | succ j =>
                have h := rprev j (by omega)
                rw [show start + (j + 1) = start + 1 + j by omega]
                exact h
          · show (addWebViewAttempts outcomes (start + 1) m).result
              = outcomes (start
                  + ((addWebViewAttempts outcomes (start + 1) m).attemptsUsed + 1 - 1))
            rw [show start + ((addWebViewAttempts outcomes (start + 1) m).attemptsUsed + 1 - 1)
                = start + 1 + ((addWebViewAttempts outcomes (start + 1) m).attemptsUsed - 1)
              by omega]
            exact rres
          · intro hlt
            have hlt' : (addWebViewAttempts outcomes (start + 1) m).attemptsUsed + 1
                < m + 1 := hlt
            show outcomes (start
                + ((addWebViewAttempts outcomes (start + 1) m).attemptsUsed + 1 - 1))
              ≠ Except.error noHandlerMessage
            rw [show start + ((addWebViewAttempts outcomes (start + 1) m).attemptsUsed + 1 - 1)
                = start + 1 + ((addWebViewAttempts outcomes (start + 1) m).attemptsUsed - 1)
              by omega]
            exact rstop (by omega)
      · have hres : addWebViewAttempts outcomes start (m + 1) = ⟨.ok v, 1, 0⟩ := by
          simp only [addWebViewAttempts, hout]
        rw [hres]
        refine ⟨le_refl 1, Nat.succ_le_succ (Nat.zero_le m), by norm_num, ?_, ?_, ?_⟩
        · intro i hi
          have hi' : i + 1 < 1 := hi
          exact absurd hi' (by omega)
        · show Except.ok v = outcomes (start + (1 - 1))
          have : outcomes (start + (1 - 1)) = Except.ok v := hout
          exact this.symm
        · intro _
          intro heq
          have heq0 : outcomes start = Except.error noHandlerMessage := heq
          rw [hout] at heq0
          exact Except.noConfusion heq0

/-- C5: in a non-renderer process, `addWebView` issues the
`webView.addWebView` request at most 5 times with exactly one 1000 ms wait
between consecutive attempts; every attempt before the last failed with
exactly the no-handler message for that request type; the final attempt's
outcome (success or error) is surfaced to the caller; and the loop stops
short of 5 attempts only when the last outcome was not that exact
no-handler error. -/
theorem addWebView_retry_policy (outcomes : Nat → Except String (Option String)) :
    noHandlerMessage
      = "No handler was found to process the request of type webView.addWebView"
    ∧ 1 ≤ (addWebViewNonRenderer outcomes).attemptsUsed
    ∧ (addWebViewNonRenderer outcomes).attemptsUsed ≤ 5
    ∧ (addWebViewNonRenderer outcomes).waitMs
        = 1000 * ((addWebViewNonRenderer outcomes).attemptsUsed - 1)
    ∧ (∀ i, i + 1 < (addWebViewNonRenderer outcomes).attemptsUsed →
        outcomes i = .error noHandlerMessage)
    ∧ (addWebViewNonRenderer outcomes).result
        = outcomes ((addWebViewNonRenderer outcomes).attemptsUsed - 1)
    ∧ ((addWebViewNonRenderer outcomes).attemptsUsed < 5 →
        outcomes ((addWebViewNonRenderer outcomes).attemptsUsed - 1)
          ≠ .error noHandlerMessage) := by
  have h := addWebViewAttempts_spec outcomes 5 (by decide) 0
  obtain ⟨h1, h2, h3, h4, h5, h6⟩ := h
  refine ⟨rfl, h1, h2, h3, ?_, ?_, ?_⟩
  · intro i hi
    have := h4 i hi
    simpa using this
  · simpa using h5
  · intro hlt
    have := h6 hlt
    simpa using this

/-- Attempt outcomes used by the C5 witness: the first two attempts fail
with the no-handler message, the third succeeds. -/
def sampleOutcomes : Nat → Except String (Option String) := fun n =>
  if n < 2 then .error noHandlerMessage else .ok (some "wv1")

/-- Witness for C5: on `sampleOutcomes` the loop retries twice (two 1000 ms
waits), succeeds on the third attempt, and indeed every earlier attempt
failed with the no-handler message. -/
theorem addWebView_retry_policy_w :
    addWebViewNonRenderer sampleOutcomes = ⟨.ok (some "wv1"), 3, 2000⟩
    ∧ sampleOutcomes 0 = .error noHandlerMessage := by
  have he : addWebViewNonRenderer sampleOutcomes = ⟨.ok (some "wv1"), 3, 2000⟩ := rfl
  refine ⟨he, (addWebView_retry_policy sampleOutcomes).2.2.2.2.1 0 ?_⟩
  rw [he]
  decide

end Paranext
